import Mathlib

/-!
Shallow embedding of the risk-evaluation core of the Injury-Risk-Detector
backend (`src/backend/app`): enumerations (`schemas/enums.py`), scoring
configuration (`services/scoring_config.py`), safety rules R0-R4
(`services/safety_rules.py`), the heuristic risk scorer
(`services/risk_scorer.py`), and the recommendation engine
(`services/recommender.py`).

Python floats are modelled as rationals (`ℚ`), Python ints as `ℤ`/`ℕ`,
`Optional` as `Option`, and the `ValueError` raised by enum construction
as `Except String`.  Database feature building (`ml/features.py`'s
`FeatureBuilder`) is I/O and is modelled by taking the resulting
`UserFeatures` snapshot as an input.
-/

namespace InjuryRisk

/-- `SportType` from `schemas/enums.py`. -/
inductive SportType where
  | run | bike | swim | gym | football | padel | walk | hyrox | other
deriving DecidableEq, Repr

/-- `IntensityZone` from `schemas/enums.py`. -/
inductive IntensityZone where
  | z1 | z2 | tempo | threshold | vo2 | max
deriving DecidableEq, Repr

/-- `GymSplit` from `schemas/enums.py`. -/
inductive GymSplit where
  | push | pull | legs | upper | lower | full_body
deriving DecidableEq, Repr

/-- `MuscleRegion` from `schemas/enums.py`. -/
inductive MuscleRegion where
  | quads | hamstrings | glutes | calves | chest | back | shoulders
  | biceps | triceps | core | forearms
deriving DecidableEq, Repr

/-- `RiskLevel` from `schemas/enums.py`. -/
inductive RiskLevel where
  | green | yellow | red
deriving DecidableEq, Repr

/-- `ImpactLevel` from `schemas/enums.py`. -/
inductive ImpactLevel where
  | very_low | low | medium | high | very_high
deriving DecidableEq, Repr

/-- All members of the `SportType` enumeration, in declaration order. -/
def allSports : List SportType :=
  [.run, .bike, .swim, .gym, .football, .padel, .walk, .hyrox, .other]

/-- All members of the `MuscleRegion` enumeration, in declaration order. -/
def allMuscles : List MuscleRegion :=
  [.quads, .hamstrings, .glutes, .calves, .chest, .back, .shoulders,
   .biceps, .triceps, .core, .forearms]

/-- `SPORT_IMPACT_MAP` from `schemas/enums.py`. -/
def SPORT_IMPACT_MAP : SportType → ImpactLevel
  | .run => .high
  | .bike => .low
  | .swim => .low
  | .gym => .medium
  | .football => .very_high
  | .padel => .medium
  | .walk => .very_low
  | .hyrox => .very_high
  | .other => .medium

/-- `SPORT_MUSCLE_MAP` from `schemas/enums.py`. -/
def SPORT_MUSCLE_MAP : SportType → List MuscleRegion
  | .run => [.quads, .hamstrings, .calves, .glutes]
  | .bike => [.quads, .glutes]
  | .swim => [.back, .shoulders, .core]
  | .gym => []
  | .football => [.quads, .hamstrings, .calves, .core]
  | .padel => [.shoulders, .core, .calves]
  | .walk => []
  | .hyrox => [.quads, .hamstrings, .glutes, .back, .shoulders, .core]
  | .other => []

/-- `GYM_SPLIT_MUSCLE_MAP` from `schemas/enums.py`. -/
def GYM_SPLIT_MUSCLE_MAP : GymSplit → List MuscleRegion
  | .push => [.chest, .shoulders, .triceps]
  | .pull => [.back, .biceps, .forearms]
  | .legs => [.quads, .hamstrings, .glutes, .calves]
  | .upper => [.chest, .back, .shoulders, .biceps, .triceps]
  | .lower => [.quads, .hamstrings, .glutes, .calves]
  | .full_body => allMuscles

/-- `INTENSITY_ZONE_NUMERIC` from `schemas/enums.py`. -/
def INTENSITY_ZONE_NUMERIC : IntensityZone → Int
  | .z1 => 1
  | .z2 => 2
  | .tempo => 3
  | .threshold => 4
  | .vo2 => 5
  | .max => 6

/-! ## Scoring configuration (`services/scoring_config.py`) -/

/-- `HRVConfig`. -/
structure HRVConfig where
  severe_threshold : ℚ := -3/2
  moderate_threshold : ℚ := -1
  mild_threshold : ℚ := -1/2
  severe_points : ℚ := 25
  moderate_points : ℚ := 15
  mild_points : ℚ := 8
deriving Repr

/-- `RHRConfig`. -/
structure RHRConfig where
  severe_threshold : ℚ := 8
  moderate_threshold : ℚ := 5
  mild_threshold : ℚ := 3
  severe_points : ℚ := 25
  moderate_points : ℚ := 15
  mild_points : ℚ := 8
deriving Repr

/-- `SleepConfig`. -/
structure SleepConfig where
  severe_threshold : ℚ := -90
  moderate_threshold : ℚ := -60
  mild_threshold : ℚ := -30
  severe_points : ℚ := 20
  moderate_points : ℚ := 12
  mild_points : ℚ := 5
deriving Repr

/-- `ACWRConfig`. -/
structure ACWRConfig where
  critical_threshold : ℚ := 3/2
  elevated_threshold : ℚ := 13/10
  warning_threshold : ℚ := 12/10
  detraining_threshold : ℚ := 8/10
  critical_points : ℚ := 25
  elevated_points : ℚ := 15
  warning_points : ℚ := 8
  detraining_points : ℚ := 3
deriving Repr

/-- `PainConfig`. -/
structure PainConfig where
  points_per_level : ℚ := 5
  worsening_severe_threshold : ℚ := 2
  worsening_moderate_threshold : ℚ := 0
  worsening_severe_points : ℚ := 10
  worsening_moderate_points : ℚ := 5
deriving Repr

/-- `SorenessConfig`. -/
structure SorenessConfig where
  target_muscle_points_per_level : ℚ := 3
  general_points_per_level : ℚ := 3/2
deriving Repr

/-- `ReadinessConfig`. -/
structure ReadinessConfig where
  poor_threshold : ℚ := 4
  moderate_threshold : ℚ := 6
  poor_points : ℚ := 15
  moderate_points : ℚ := 8
deriving Repr

/-- `FatigueConfig`. -/
structure FatigueConfig where
  severe_threshold : ℚ := 7
  moderate_threshold : ℚ := 5
  severe_points : ℚ := 12
  moderate_points : ℚ := 5
deriving Repr

/-- `TrainingLoadConfig`. -/
structure TrainingLoadConfig where
  consecutive_severe_threshold : ℚ := 5
  consecutive_moderate_threshold : ℚ := 4
  consecutive_mild_threshold : ℚ := 3
  consecutive_severe_points : ℚ := 15
  consecutive_moderate_points : ℚ := 8
  consecutive_mild_points : ℚ := 4
deriving Repr

/-- `MissingDataConfig`. -/
structure MissingDataConfig where
  points_per_missing : ℚ := 3
deriving Repr

/-- `IntensityMultiplierConfig`. -/
structure IntensityMultiplierConfig where
  neutral_base : ℚ := 4
  scaling_factor : ℚ := 1/20
deriving Repr

/-- `SafetyRulesConfig`. -/
structure SafetyRulesConfig where
  r0_pain_threshold : ℤ := 7
  r0_swelling_triggers : Bool := true
  r1_pain_min : ℤ := 5
  r1_pain_max : ℤ := 6
  r2_doms_threshold : ℤ := 7
  r3_hrv_z_threshold : ℚ := -3/2
  r3_rhr_delta_threshold : ℚ := 5
deriving Repr

/-- `ScoringConfig` (master bundle). -/
structure ScoringConfig where
  hrv : HRVConfig := {}
  rhr : RHRConfig := {}
  sleep : SleepConfig := {}
  acwr : ACWRConfig := {}
  pain : PainConfig := {}
  soreness : SorenessConfig := {}
  readiness : ReadinessConfig := {}
  fatigue : FatigueConfig := {}
  training_load : TrainingLoadConfig := {}
  missing_data : MissingDataConfig := {}
  intensity_multiplier : IntensityMultiplierConfig := {}
  safety_rules : SafetyRulesConfig := {}
deriving Repr

/-- The default `ScoringConfig()` (all dataclass defaults). -/
def defaultConfig : ScoringConfig := {}

/-- `Settings.risk_threshold_green_max` default from `app/config.py`. -/
def risk_threshold_green_max : ℤ := 35

/-- `Settings.risk_threshold_yellow_max` default from `app/config.py`. -/
def risk_threshold_yellow_max : ℤ := 60

/-! ## Feature snapshot (`ml/features.py`).  The `FeatureBuilder` that
fills this from the database is I/O and stays outside the embedding; the
scorer consumes the snapshot.  The Python `soreness_map` dict keyed by
muscle-region value strings with `.get(key, 0)` is modelled as a total
function `MuscleRegion → ℤ` defaulting to 0. -/

/-- `UserFeatures` (the fields consumed by safety rules and scoring). -/
structure UserFeatures where
  hrv_z : Option ℚ := none
  rhr_delta : Option ℚ := none
  sleep_delta : Option ℚ := none
  acwr : Option ℚ := none
  consecutive_training_days : ℕ := 0
  hard_session_today : Bool := false
  pain_score : ℤ := 0
  pain_trend_3d : ℚ := 0
  max_soreness : ℤ := 0
  soreness_map : MuscleRegion → ℤ := fun _ => 0
  readiness : ℚ := 7
  fatigue : ℚ := 3
  swelling : Bool := false
  missing_hrv : Bool := true
  missing_sleep : Bool := true
  missing_rhr : Bool := true

/-- `get_soreness_in_target_muscles` from `ml/features.py`. -/
def get_soreness_in_target_muscles (soreness_map : MuscleRegion → ℤ)
    (sport_type : SportType) (gym_split : Option GymSplit) : ℤ :=
  let target_muscles :=
    match sport_type, gym_split with
    | .gym, some split => GYM_SPLIT_MUSCLE_MAP split
    | _, _ => SPORT_MUSCLE_MAP sport_type
  target_muscles.foldl (fun m muscle => Max.max m (soreness_map muscle)) 0

/-- `get_sport_impact_score` from `ml/features.py`. -/
def get_sport_impact_score (sport_type : SportType) : ℤ :=
  match SPORT_IMPACT_MAP sport_type with
  | .very_low => 1
  | .low => 2
  | .medium => 3
  | .high => 4
  | .very_high => 5

/-- `get_intensity_score` from `ml/features.py` (`None` defaults to moderate = 3). -/
def get_intensity_score (intensity : Option IntensityZone) : ℤ :=
  match intensity with
  | none => 3
  | some z => INTENSITY_ZONE_NUMERIC z

/-! ## Threshold evaluator (`services/risk_scorer.py`, lines 32-95) -/

/-- `Severity` from `services/risk_scorer.py`. -/
inductive Severity where
  | none | mild | moderate | severe
deriving DecidableEq, Repr

/-- `ThresholdResult` from `services/risk_scorer.py`. -/
structure ThresholdResult where
  contribution : ℚ := 0
  severity : Severity := .none
  triggered : Bool := false
deriving DecidableEq, Repr

/-- `evaluate_lower_threshold` from `services/risk_scorer.py`. -/
def evaluate_lower_threshold (value : Option ℚ)
    (severe_threshold moderate_threshold mild_threshold : ℚ)
    (severe_points moderate_points mild_points : ℚ) : ThresholdResult :=
  match value with
  | none => {}
  | some v =>
    if v < severe_threshold then ⟨severe_points, .severe, true⟩
    else if v < moderate_threshold then ⟨moderate_points, .moderate, true⟩
    else if v < mild_threshold then ⟨mild_points, .mild, true⟩
    else {}

/-- `evaluate_upper_threshold` from `services/risk_scorer.py`. -/
def evaluate_upper_threshold (value : Option ℚ)
    (severe_threshold moderate_threshold mild_threshold : ℚ)
    (severe_points moderate_points mild_points : ℚ) : ThresholdResult :=
  match value with
  | none => {}
  | some v =>
    if v > severe_threshold then ⟨severe_points, .severe, true⟩
    else if v > moderate_threshold then ⟨moderate_points, .moderate, true⟩
    else if v > mild_threshold then ⟨mild_points, .mild, true⟩
    else {}

/-! ## Safety rules (`services/safety_rules.py`) -/

/-- `SafetyRuleResult` (rule id/name/description strings kept; `triggered`
defaults false, lists empty, options `none`, as in the dataclass). -/
structure SafetyRuleResult where
  rule_id : String
  rule_name : String
  description : String
  triggered : Bool := false
  blocked_sports : List SportType := []
  max_allowed_intensity : Option IntensityZone := none
  blocked_muscle_regions : List MuscleRegion := []
  override_risk_level : Option RiskLevel := none

/-- `SafetyEvaluation`. -/
structure SafetyEvaluation where
  triggered_rules : List SafetyRuleResult
  max_allowed_intensity : Option IntensityZone
  blocked_sports : List SportType
  blocked_muscle_regions : List MuscleRegion
  override_risk_level : Option RiskLevel

/-- `SafetyEvaluation.any_triggered`. -/
def SafetyEvaluation.any_triggered (e : SafetyEvaluation) : Bool :=
  e.triggered_rules.length > 0

/-- `HIGH_IMPACT_SPORTS` from `services/safety_rules.py`. -/
def HIGH_IMPACT_SPORTS : List SportType := [.football, .run, .hyrox]

/-- `evaluate_r0_acute_pain` from `services/safety_rules.py`. -/
def evaluate_r0_acute_pain (pain_score : ℤ) (swelling : Bool)
    (config : SafetyRulesConfig) : SafetyRuleResult :=
  let base : SafetyRuleResult :=
    { rule_id := "R0", rule_name := "Acute Red Flags", description := "" }
  let pain_triggers := pain_score ≥ config.r0_pain_threshold
  let swelling_triggers := swelling ∧ config.r0_swelling_triggers
  if pain_triggers ∨ swelling_triggers then
    { base with
      triggered := true
      override_risk_level := some .red
      max_allowed_intensity := some .z1
      blocked_sports := allSports.filter (fun s => s ≠ .walk)
      description :=
        if swelling then
          "Swelling detected. Medical evaluation recommended. Only light movement (walking) if pain-free."
        else
          "Pain very high (" ++ toString pain_score ++ "/10). Medical evaluation recommended. Only light movement (walking) if pain-free." }
  else base

/-- `evaluate_r1_moderate_pain_impact` from `services/safety_rules.py`. -/
def evaluate_r1_moderate_pain_impact (pain_score : ℤ)
    (planned_sport : SportType) (config : SafetyRulesConfig) : SafetyRuleResult :=
  let base : SafetyRuleResult :=
    { rule_id := "R1", rule_name := "Moderate Pain - No Impact Sports", description := "" }
  if config.r1_pain_min ≤ pain_score ∧ pain_score ≤ config.r1_pain_max then
    { base with
      triggered := true
      blocked_sports := HIGH_IMPACT_SPORTS
      max_allowed_intensity := some .z2
      description :=
        "Moderate pain (" ++ toString pain_score ++ "/10). No impact sports recommended. Alternatives: Bike Z1-Z2, easy swimming, mobility."
      override_risk_level :=
        if planned_sport ∈ HIGH_IMPACT_SPORTS then some .yellow else none }
  else base

/-- `evaluate_r2_doms` from `services/safety_rules.py`. -/
def evaluate_r2_doms (soreness_map : MuscleRegion → ℤ)
    (planned_sport : SportType) (planned_gym_split : Option GymSplit)
    (config : SafetyRulesConfig) : SafetyRuleResult :=
  let base : SafetyRuleResult :=
    { rule_id := "R2", rule_name := "DOMS - Muscle Group Protection", description := "" }
  let target_muscles :=
    match planned_sport, planned_gym_split with
    | .gym, some split => GYM_SPLIT_MUSCLE_MAP split
    | _, _ => SPORT_MUSCLE_MAP planned_sport
  let high_soreness_muscles :=
    target_muscles.filter (fun muscle => soreness_map muscle ≥ config.r2_doms_threshold)
  if high_soreness_muscles ≠ [] then
    { base with
      triggered := true
      blocked_muscle_regions := high_soreness_muscles
      description := "Severe muscle soreness detected. No hard loading of these muscle groups recommended."
      override_risk_level := some .yellow }
  else base

/-- `evaluate_r3_recovery_markers` from `services/safety_rules.py`. -/
def evaluate_r3_recovery_markers (hrv_z : Option ℚ) (rhr_delta : Option ℚ)
    (config : SafetyRulesConfig) : SafetyRuleResult :=
  let base : SafetyRuleResult :=
    { rule_id := "R3", rule_name := "Poor Recovery Markers", description := "" }
  let hrv_poor : Bool :=
    match hrv_z with
    | none => false
    | some z => decide (z < config.r3_hrv_z_threshold)
  let rhr_elevated : Bool :=
    match rhr_delta with
    | none => false
    | some d => decide (d > config.r3_rhr_delta_threshold)
  if hrv_poor && rhr_elevated then
    { base with
      triggered := true
      max_allowed_intensity := some .z2
      description := "HRV significantly below baseline and resting heart rate elevated. No high-intensity training recommended. Max Zone 2."
      override_risk_level := some .yellow }
  else if hrv_poor then
    { base with
      triggered := true
      max_allowed_intensity := some .tempo
      description := "HRV significantly below baseline. High-intensity training with caution." }
  else if rhr_elevated then
    { base with
      triggered := true
      max_allowed_intensity := some .tempo
      description := "Resting heart rate elevated. High-intensity training with caution." }
  else base

/-- `evaluate_r4_two_a_day` from `services/safety_rules.py`. -/
def evaluate_r4_two_a_day (hard_session_today : Bool)
    (planned_intensity : Option IntensityZone) : SafetyRuleResult :=
  let base : SafetyRuleResult :=
    { rule_id := "R4", rule_name := "Two-a-Day Limit", description := "" }
  let hard_intensities : List IntensityZone := [.threshold, .vo2, .max]
  if hard_session_today &&
      (match planned_intensity with
       | some z => hard_intensities.contains z
       | none => false) then
    { base with
      triggered := true
      max_allowed_intensity := some .z2
      description := "Already completed a hard session today. Second session should be easy (max Zone 2) or a different sport."
      override_risk_level := some .yellow }
  else base

/-- `_intensity_order` from `services/safety_rules.py`. -/
def intensity_order (intensity : IntensityZone) : ℤ :=
  match intensity with
  | .z1 => 1
  | .z2 => 2
  | .tempo => 3
  | .threshold => 4
  | .vo2 => 5
  | .max => 6

/-- `_risk_order` from `services/safety_rules.py`. -/
def risk_order (risk : RiskLevel) : ℤ :=
  match risk with
  | .green => 1
  | .yellow => 2
  | .red => 3

/-- `evaluate_all_safety_rules` from `services/safety_rules.py`.  The
Python `list(set(blocked_sports))` deduplication is modelled with
`List.dedup` (membership-equivalent). -/
def evaluate_all_safety_rules (pain_score : ℤ) (swelling : Bool)
    (soreness_map : MuscleRegion → ℤ) (planned_sport : SportType)
    (planned_gym_split : Option GymSplit)
    (planned_intensity : Option IntensityZone)
    (hrv_z : Option ℚ) (rhr_delta : Option ℚ) (hard_session_today : Bool)
    (config : SafetyRulesConfig) : SafetyEvaluation :=
  let rules : List SafetyRuleResult :=
    [evaluate_r0_acute_pain pain_score swelling config,
     evaluate_r1_moderate_pain_impact pain_score planned_sport config,
     evaluate_r2_doms soreness_map planned_sport planned_gym_split config,
     evaluate_r3_recovery_markers hrv_z rhr_delta config,
     evaluate_r4_two_a_day hard_session_today planned_intensity]
  let results := rules.filter (fun r => r.triggered)
  let blocked_sports := results.foldl (fun acc r => acc ++ r.blocked_sports) []
  let blocked_muscles := results.foldl (fun acc r => acc ++ r.blocked_muscle_regions) []
  let max_intensity := results.foldl
    (fun acc r =>
      match r.max_allowed_intensity with
      | none => acc
      | some ri =>
        match acc with
        | none => some ri
        | some cur => if intensity_order ri < intensity_order cur then some ri else acc)
    none
  let override_level := results.foldl
    (fun acc r =>
      match r.override_risk_level with
      | none => acc
      | some rl =>
        match acc with
        | none => some rl
        | some cur => if risk_order rl > risk_order cur then some rl else acc)
    none
  { triggered_rules := results
    max_allowed_intensity := max_intensity
    blocked_sports := blocked_sports.dedup
    blocked_muscle_regions := blocked_muscles.dedup
    override_risk_level := override_level }

/-! ## Heuristic scorer (`services/risk_scorer.py`) -/

/-- Python 3 `round` on a (rational-valued) number: round half to even. -/
def pyRound (q : ℚ) : ℤ :=
  let f := ⌊q⌋
  let r := q - f
  if r < 1/2 then f
  else if r > 1/2 then f + 1
  else if f % 2 = 0 then f else f + 1

/-- `ScoreBreakdown` from `services/risk_scorer.py` (fields rational;
`final_score` is the Python `min(100, max(0, round(score)))`, an integer). -/
structure ScoreBreakdown where
  hrv_contribution : ℚ := 0
  rhr_contribution : ℚ := 0
  sleep_contribution : ℚ := 0
  acwr_contribution : ℚ := 0
  pain_contribution : ℚ := 0
  pain_trend_contribution : ℚ := 0
  target_soreness_contribution : ℚ := 0
  general_soreness_contribution : ℚ := 0
  readiness_contribution : ℚ := 0
  fatigue_contribution : ℚ := 0
  consecutive_days_contribution : ℚ := 0
  missing_data_penalty : ℚ := 0
  base_score : ℚ := 0
  intensity_multiplier : ℚ := 1
  final_score : ℤ := 0

/-- The raw (pre-rounding, pre-clamping) heuristic score: the running
`score` variable of `RiskScorer._calculate_heuristic_score` just before
`breakdown.final_score = min(100, max(0, round(score)))`. -/
def raw_heuristic_score (cfg : ScoringConfig) (features : UserFeatures)
    (planned_sport : SportType) (planned_intensity : Option IntensityZone)
    (planned_gym_split : Option GymSplit) : ℚ :=
  let hrv_c := (evaluate_lower_threshold features.hrv_z
    cfg.hrv.severe_threshold cfg.hrv.moderate_threshold cfg.hrv.mild_threshold
    cfg.hrv.severe_points cfg.hrv.moderate_points cfg.hrv.mild_points).contribution
  let rhr_c := (evaluate_upper_threshold features.rhr_delta
    cfg.rhr.severe_threshold cfg.rhr.moderate_threshold cfg.rhr.mild_threshold
    cfg.rhr.severe_points cfg.rhr.moderate_points cfg.rhr.mild_points).contribution
  let sleep_c := (evaluate_lower_threshold features.sleep_delta
    cfg.sleep.severe_threshold cfg.sleep.moderate_threshold cfg.sleep.mild_threshold
    cfg.sleep.severe_points cfg.sleep.moderate_points cfg.sleep.mild_points).contribution
  let acwr_c :=
    match features.acwr with
    | none => 0
    | some v =>
      if v > cfg.acwr.critical_threshold then cfg.acwr.critical_points
      else if v > cfg.acwr.elevated_threshold then cfg.acwr.elevated_points
      else if v > cfg.acwr.warning_threshold then cfg.acwr.warning_points
      else if v < cfg.acwr.detraining_threshold then cfg.acwr.detraining_points
      else 0
  let pain_c := (features.pain_score : ℚ) * cfg.pain.points_per_level
  let pain_trend_c := (evaluate_upper_threshold (some features.pain_trend_3d)
    cfg.pain.worsening_severe_threshold cfg.pain.worsening_moderate_threshold 0
    cfg.pain.worsening_severe_points cfg.pain.worsening_moderate_points 0).contribution
  let target_soreness := get_soreness_in_target_muscles
    features.soreness_map planned_sport planned_gym_split
  let target_c := (target_soreness : ℚ) * cfg.soreness.target_muscle_points_per_level
  let general_c := (features.max_soreness : ℚ) * cfg.soreness.general_points_per_level
  let readiness_c := (evaluate_lower_threshold (some features.readiness)
    cfg.readiness.poor_threshold cfg.readiness.moderate_threshold 0
    cfg.readiness.poor_points cfg.readiness.moderate_points 0).contribution
  let fatigue_c := (evaluate_upper_threshold (some features.fatigue)
    cfg.fatigue.severe_threshold cfg.fatigue.moderate_threshold 0
    cfg.fatigue.severe_points cfg.fatigue.moderate_points 0).contribution
  let consecutive_c := (evaluate_upper_threshold
    (some (features.consecutive_training_days : ℚ))
    cfg.training_load.consecutive_severe_threshold
    cfg.training_load.consecutive_moderate_threshold
    cfg.training_load.consecutive_mild_threshold
    cfg.training_load.consecutive_severe_points
    cfg.training_load.consecutive_moderate_points
    cfg.training_load.consecutive_mild_points).contribution
  let base_score := hrv_c + rhr_c + sleep_c + acwr_c + pain_c + pain_trend_c
    + target_c + general_c + readiness_c + fatigue_c + consecutive_c
  let impact_score := get_sport_impact_score planned_sport
  let intensity_score := get_intensity_score planned_intensity
  let multiplier := 1 + ((impact_score : ℚ) + (intensity_score : ℚ)
    - cfg.intensity_multiplier.neutral_base) * cfg.intensity_multiplier.scaling_factor
  let missing_count : ℚ :=
    (if features.missing_hrv then 1 else 0) + (if features.missing_sleep then 1 else 0)
    + (if features.missing_rhr then 1 else 0)
  base_score * multiplier + missing_count * cfg.missing_data.points_per_missing

/-- `RiskScorer._calculate_heuristic_score`: returns the final clamped
integer score together with the breakdown record. -/
def calculate_heuristic_score (cfg : ScoringConfig) (features : UserFeatures)
    (planned_sport : SportType) (planned_intensity : Option IntensityZone)
    (planned_gym_split : Option GymSplit) : ℤ × ScoreBreakdown :=
  let hrv_c := (evaluate_lower_threshold features.hrv_z
    cfg.hrv.severe_threshold cfg.hrv.moderate_threshold cfg.hrv.mild_threshold
    cfg.hrv.severe_points cfg.hrv.moderate_points cfg.hrv.mild_points).contribution
  let rhr_c := (evaluate_upper_threshold features.rhr_delta
    cfg.rhr.severe_threshold cfg.rhr.moderate_threshold cfg.rhr.mild_threshold
    cfg.rhr.severe_points cfg.rhr.moderate_points cfg.rhr.mild_points).contribution
  let sleep_c := (evaluate_lower_threshold features.sleep_delta
    cfg.sleep.severe_threshold cfg.sleep.moderate_threshold cfg.sleep.mild_threshold
    cfg.sleep.severe_points cfg.sleep.moderate_points cfg.sleep.mild_points).contribution
  let acwr_c :=
    match features.acwr with
    | none => 0
    | some v =>
      if v > cfg.acwr.critical_threshold then cfg.acwr.critical_points
      else if v > cfg.acwr.elevated_threshold then cfg.acwr.elevated_points
      else if v > cfg.acwr.warning_threshold then cfg.acwr.warning_points
      else if v < cfg.acwr.detraining_threshold then cfg.acwr.detraining_points
      else 0
  let pain_c := (features.pain_score : ℚ) * cfg.pain.points_per_level
  let pain_trend_c := (evaluate_upper_threshold (some features.pain_trend_3d)
    cfg.pain.worsening_severe_threshold cfg.pain.worsening_moderate_threshold 0
    cfg.pain.worsening_severe_points cfg.pain.worsening_moderate_points 0).contribution
  let target_soreness := get_soreness_in_target_muscles
    features.soreness_map planned_sport planned_gym_split
  let target_c := (target_soreness : ℚ) * cfg.soreness.target_muscle_points_per_level
  let general_c := (features.max_soreness : ℚ) * cfg.soreness.general_points_per_level
  let readiness_c := (evaluate_lower_threshold (some features.readiness)
    cfg.readiness.poor_threshold cfg.readiness.moderate_threshold 0
    cfg.readiness.poor_points cfg.readiness.moderate_points 0).contribution
  let fatigue_c := (evaluate_upper_threshold (some features.fatigue)
    cfg.fatigue.severe_threshold cfg.fatigue.moderate_threshold 0
    cfg.fatigue.severe_points cfg.fatigue.moderate_points 0).contribution
  let consecutive_c := (evaluate_upper_threshold
    (some (features.consecutive_training_days : ℚ))
    cfg.training_load.consecutive_severe_threshold
    cfg.training_load.consecutive_moderate_threshold
    cfg.training_load.consecutive_mild_threshold
    cfg.training_load.consecutive_severe_points
    cfg.training_load.consecutive_moderate_points
    cfg.training_load.consecutive_mild_points).contribution
  let base_score := hrv_c + rhr_c + sleep_c + acwr_c + pain_c + pain_trend_c
    + target_c + general_c + readiness_c + fatigue_c + consecutive_c
  let impact_score := get_sport_impact_score planned_sport
  let intensity_score := get_intensity_score planned_intensity
  let multiplier := 1 + ((impact_score : ℚ) + (intensity_score : ℚ)
    - cfg.intensity_multiplier.neutral_base) * cfg.intensity_multiplier.scaling_factor
  let missing_count : ℚ :=
    (if features.missing_hrv then 1 else 0) + (if features.missing_sleep then 1 else 0)
    + (if features.missing_rhr then 1 else 0)
  let penalty := missing_count * cfg.missing_data.points_per_missing
  let score := base_score * multiplier + penalty
  let final : ℤ := Min.min 100 (Max.max 0 (pyRound score))
  (final,
   { hrv_contribution := hrv_c
     rhr_contribution := rhr_c
     sleep_contribution := sleep_c
     acwr_contribution := acwr_c
     pain_contribution := pain_c
     pain_trend_contribution := pain_trend_c
     target_soreness_contribution := target_c
     general_soreness_contribution := general_c
     readiness_contribution := readiness_c
     fatigue_contribution := fatigue_c
     consecutive_days_contribution := consecutive_c
     missing_data_penalty := penalty
     base_score := base_score
     intensity_multiplier := multiplier
     final_score := final })

/-- `RiskScorer._determine_risk`: applies the safety override to the
heuristic score and classifies the result, using the two environment
thresholds from `app/config.py`. -/
def determine_risk (green_max yellow_max : ℤ) (heuristic_score : ℤ)
    (safety_eval : SafetyEvaluation) : ℤ × RiskLevel :=
  let risk_score :=
    match safety_eval.override_risk_level with
    | some .red => Max.max heuristic_score (yellow_max + 1)
    | some .yellow => Max.max heuristic_score (green_max + 1)
    | _ => heuristic_score
  let risk_level :=
    if risk_score ≤ green_max then RiskLevel.green
    else if risk_score ≤ yellow_max then RiskLevel.yellow
    else RiskLevel.red
  (risk_score, risk_level)

/-! ## Recommendation engine (`services/recommender.py`) -/

/-- `Recommendation` dataclass. -/
structure Recommendation where
  sport_type : SportType
  duration_minutes : ℤ
  intensity : Option IntensityZone := none
  gym_split : Option GymSplit := none
  intensity_level : Option String := none
  reason : String := ""
  is_original_plan_modified : Bool := false

/-- Python `int()` truncation toward zero on a rational. -/
def pyIntTrunc (q : ℚ) : ℤ := if 0 ≤ q then ⌊q⌋ else -⌊-q⌋

/-- `RecommendationEngine._reduce_intensity`. -/
def reduce_intensity (intensity : Option IntensityZone) : Option IntensityZone :=
  match intensity with
  | none => some .z2
  | some .max => some .vo2
  | some .vo2 => some .threshold
  | some .threshold => some .tempo
  | some .tempo => some .z2
  | some .z2 => some .z1
  | some .z1 => some .z1

/-- `RecommendationEngine._get_alternative_sport`. -/
def get_alternative_sport (blocked_sports : List SportType)
    (current : SportType) : SportType :=
  let alt :=
    match current with
    | .run => SportType.bike
    | .bike => SportType.swim
    | .swim => SportType.bike
    | .gym => SportType.bike
    | .football => SportType.bike
    | .padel => SportType.swim
    | .hyrox => SportType.bike
    | .walk => SportType.swim
    | .other => SportType.bike
  if alt ∈ blocked_sports then
    match [SportType.bike, SportType.swim, SportType.walk].find?
        (fun s => !(blocked_sports.contains s)) with
    | some s => s
    | none => alt
  else alt

/-- `RecommendationEngine._get_low_impact_sport`. -/
def get_low_impact_sport (blocked_sports : List SportType) : SportType :=
  match [SportType.bike, SportType.swim, SportType.walk, SportType.gym].find?
      (fun s => !(blocked_sports.contains s)) with
  | some s => s
  | none => .walk

/-- `RecommendationEngine._get_alternative_gym_split`. -/
def get_alternative_gym_split (current : Option GymSplit) : Option GymSplit :=
  match current with
  | none => some .upper
  | some .push => some .pull
  | some .pull => some .push
  | some .legs => some .upper
  | some .upper => some .lower
  | some .lower => some .upper
  | some .full_body => some .upper

/-- `RecommendationEngine._gym_split_uses_blocked_muscles`. -/
def gym_split_uses_blocked_muscles (blocked_muscles : List MuscleRegion)
    (split : GymSplit) : Bool :=
  (GYM_SPLIT_MUSCLE_MAP split).any (fun muscle => blocked_muscles.contains muscle)

/-- `RecommendationEngine._get_safe_gym_split`. -/
def get_safe_gym_split (blocked_muscles : List MuscleRegion) : GymSplit :=
  match [GymSplit.push, GymSplit.pull, GymSplit.upper, GymSplit.legs].find?
      (fun split => !(gym_split_uses_blocked_muscles blocked_muscles split)) with
  | some split => split
  | none => .upper

/-- `RecommendationEngine._red_recommendations`. -/
def red_recommendations : Recommendation × Recommendation :=
  ({ sport_type := .walk
     duration_minutes := 30
     intensity := some .z1
     reason := "Erholung empfohlen. Leichter Spaziergang falls schmerzfrei möglich." },
   { sport_type := .swim
     duration_minutes := 20
     intensity := some .z1
     reason := "Alternative: Lockeres Schwimmen oder Mobility-Übungen zur aktiven Erholung." })

/-- `RecommendationEngine._yellow_recommendations`. -/
def yellow_recommendations (blocked_sports : List SportType)
    (blocked_muscles : List MuscleRegion) (planned_sport : SportType)
    (planned_duration : ℤ) (planned_intensity : Option IntensityZone)
    (planned_gym_split : Option GymSplit) : Recommendation × Recommendation :=
  let modified_duration := pyIntTrunc ((planned_duration : ℚ) * (8/10))
  let modified_intensity := reduce_intensity planned_intensity
  let rec_a :=
    if planned_sport ∈ blocked_sports then
      let alt_sport := get_low_impact_sport blocked_sports
      ({ sport_type := alt_sport
         duration_minutes := modified_duration
         intensity := modified_intensity
         reason := "Originalplan angepasst: Sportart ersetzt aufgrund erhöhter Belastungsindikatoren."
         is_original_plan_modified := true } : Recommendation)
    else
      let final_gym_split :=
        match planned_sport, planned_gym_split with
        | .gym, some split =>
          if gym_split_uses_blocked_muscles blocked_muscles split then
            some (get_safe_gym_split blocked_muscles)
          else planned_gym_split
        | _, _ => planned_gym_split
      ({ sport_type := planned_sport
         duration_minutes := modified_duration
         intensity := modified_intensity
         gym_split := final_gym_split
         reason := "Originalplan angepasst: Reduzierte Dauer und Intensität aufgrund erhöhter Belastungsindikatoren."
         is_original_plan_modified := true } : Recommendation)
  let low_impact := get_low_impact_sport blocked_sports
  let rec_b : Recommendation :=
    { sport_type := low_impact
      duration_minutes := 45
      intensity := if low_impact ≠ SportType.gym then some .z2 else none
      gym_split := if low_impact = SportType.gym then some (get_safe_gym_split blocked_muscles) else none
      intensity_level := if low_impact = SportType.gym then some "light" else none
      reason := "Schonende Alternative mit niedriger Intensität." }
  (rec_a, rec_b)

/-- `RecommendationEngine._green_recommendations` (falls through to the
yellow branch when the planned sport is blocked). -/
def green_recommendations (blocked_sports : List SportType)
    (blocked_muscles : List MuscleRegion) (planned_sport : SportType)
    (planned_duration : ℤ) (planned_intensity : Option IntensityZone)
    (planned_gym_split : Option GymSplit) : Recommendation × Recommendation :=
  if planned_sport ∈ blocked_sports then
    yellow_recommendations blocked_sports blocked_muscles planned_sport
      planned_duration planned_intensity planned_gym_split
  else
    let rec_a : Recommendation :=
      { sport_type := planned_sport
        duration_minutes := planned_duration
        intensity := planned_intensity
        gym_split := planned_gym_split
        reason := "Training wie geplant möglich. Gute Erholung und niedrige Belastungsindikatoren." }
    let alt_sport := get_alternative_sport blocked_sports planned_sport
    let rec_b : Recommendation :=
      { sport_type := alt_sport
        duration_minutes := planned_duration
        intensity := if alt_sport ≠ SportType.gym then planned_intensity else none
        gym_split := if alt_sport = SportType.gym then get_alternative_gym_split planned_gym_split else none
        reason := "Alternative als Abwechslung." }
    (rec_a, rec_b)

/-- `RecommendationEngine.generate_recommendations`. -/
def generate_recommendations (risk_level : RiskLevel)
    (blocked_sports : List SportType) (blocked_muscles : List MuscleRegion)
    (planned_sport : SportType) (planned_duration : ℤ)
    (planned_intensity : Option IntensityZone)
    (planned_gym_split : Option GymSplit) : Recommendation × Recommendation :=
  match risk_level with
  | .green => green_recommendations blocked_sports blocked_muscles planned_sport
      planned_duration planned_intensity planned_gym_split
  | .yellow => yellow_recommendations blocked_sports blocked_muscles planned_sport
      planned_duration planned_intensity planned_gym_split
  | .red => red_recommendations

/-! ## Session evaluation entry point (`RiskScorer.evaluate_session`)

`evaluate_session` parses the planned session's raw strings through the
`SportType`/`IntensityZone`/`GymSplit` enum constructors (which raise
`ValueError: '<v>' is not a valid <Enum>` for unknown members), then runs
safety rules, heuristic scoring, risk determination, and recommendations.
The `ValueError` is modelled as `Except.error` carrying the same message. -/

/-- The `.value` string of a `SportType` member. -/
def SportType.value : SportType → String
  | .run => "run"
  | .bike => "bike"
  | .swim => "swim"
  | .gym => "gym"
  | .football => "football"
  | .padel => "padel"
  | .walk => "walk"
  | .hyrox => "hyrox"
  | .other => "other"

/-- The `.value` string of an `IntensityZone` member. -/
def IntensityZone.value : IntensityZone → String
  | .z1 => "Z1"
  | .z2 => "Z2"
  | .tempo => "tempo"
  | .threshold => "threshold"
  | .vo2 => "VO2"
  | .max => "max"

/-- The `.value` string of a `GymSplit` member. -/
def GymSplit.value : GymSplit → String
  | .push => "push"
  | .pull => "pull"
  | .legs => "legs"
  | .upper => "upper"
  | .lower => "lower"
  | .full_body => "full_body"

/-- All members of the `IntensityZone` enumeration. -/
def allZones : List IntensityZone := [.z1, .z2, .tempo, .threshold, .vo2, .max]

/-- All members of the `GymSplit` enumeration. -/
def allSplits : List GymSplit := [.push, .pull, .legs, .upper, .lower, .full_body]

/-- `SportType(s)`: enum lookup by value, `ValueError` as `Except.error`. -/
def parse_sport (s : String) : Except String SportType :=
  match allSports.find? (fun t => t.value = s) with
  | some t => .ok t
  | none => .error ("'" ++ s ++ "' is not a valid SportType")

/-- `IntensityZone(s)`: enum lookup by value, `ValueError` as `Except.error`. -/
def parse_intensity (s : String) : Except String IntensityZone :=
  match allZones.find? (fun z => z.value = s) with
  | some z => .ok z
  | none => .error ("'" ++ s ++ "' is not a valid IntensityZone")

/-- `GymSplit(s)`: enum lookup by value, `ValueError` as `Except.error`. -/
def parse_gym_split (s : String) : Except String GymSplit :=
  match allSplits.find? (fun g => g.value = s) with
  | some g => .ok g
  | none => .error ("'" ++ s ++ "' is not a valid GymSplit")

/-- The raw planned-session record consumed by `evaluate_session`
(`models/planned_session.py` columns as stored: plain strings). -/
structure PlannedSessionInput where
  sport_type : String
  planned_duration_minutes : ℤ
  planned_intensity : Option String := none
  gym_split : Option String := none

/-- The structured verdict assembled by `evaluate_session`. -/
structure EvaluationResult where
  risk_score : ℤ
  risk_level : RiskLevel
  safety_eval : SafetyEvaluation
  score_breakdown : ScoreBreakdown
  recommendation_a : Recommendation
  recommendation_b : Recommendation
  model_version : String := "heuristic_v1"

/-- `RiskScorer.evaluate_session`, from the already-built feature
snapshot onward: parse the session's sport/intensity/split strings (the
enum constructors raise before any safety-rule evaluation or scoring),
evaluate safety rules, compute the heuristic score, determine risk, and
generate the two recommendations.  The intensity and gym-split guards
are Python truthiness checks (`if planned_session.planned_intensity`),
so the empty string — like `None` — is treated as absent and parsed by
neither enum constructor; only the sport string is parsed
unconditionally. -/
def evaluate_session (cfg : ScoringConfig) (green_max yellow_max : ℤ)
    (features : UserFeatures) (sess : PlannedSessionInput) :
    Except String EvaluationResult := do
  let planned_sport ← parse_sport sess.sport_type
  let planned_intensity ←
    match sess.planned_intensity with
    | none => pure none
    | some s =>
      if s = "" then pure none
      else do
        let z ← parse_intensity s
        pure (some z)
  let planned_gym_split ←
    match sess.gym_split with
    | none => pure none
    | some s =>
      if s = "" then pure none
      else do
        let g ← parse_gym_split s
        pure (some g)
  let safety_eval := evaluate_all_safety_rules features.pain_score
    features.swelling features.soreness_map planned_sport planned_gym_split
    planned_intensity features.hrv_z features.rhr_delta
    features.hard_session_today cfg.safety_rules
  let (heuristic_score, breakdown) := calculate_heuristic_score cfg features
    planned_sport planned_intensity planned_gym_split
  let (risk_score, risk_level) := determine_risk green_max yellow_max
    heuristic_score safety_eval
  let (rec_a, rec_b) := generate_recommendations risk_level
    safety_eval.blocked_sports safety_eval.blocked_muscle_regions
    planned_sport sess.planned_duration_minutes planned_intensity
    planned_gym_split
  pure
    { risk_score := risk_score
      risk_level := risk_level
      safety_eval := safety_eval
      score_breakdown := breakdown
      recommendation_a := rec_a
      recommendation_b := rec_b }

/-! ## Shared helper lemmas -/

/-- `allSports` enumerates the whole `SportType` enumeration. -/
lemma mem_allSports (s : SportType) : s ∈ allSports := by
  cases s <;> simp [allSports]

/-- The empty safety evaluation (no rule triggered). -/
def emptySafetyEvaluation : SafetyEvaluation :=
  { triggered_rules := []
    max_allowed_intensity := none
    blocked_sports := []
    blocked_muscle_regions := []
    override_risk_level := none }

/-- A safety evaluation carrying only an override level. -/
def overrideOnlyEvaluation (level : RiskLevel) : SafetyEvaluation :=
  { emptySafetyEvaluation with override_risk_level := some level }

/-! ## Claim theorems -/

/-- C1: with the default safety-rules configuration, R0 triggers exactly
when `pain_score ≥ 7` or `swelling` is true; a triggered result carries
override level RED, max allowed intensity Z1, and blocks every sport
except walking; a non-triggered result carries no override, no intensity
cap and no blocked sports. -/
theorem c1_r0_acute_red_flags (pain_score : ℤ) (swelling : Bool) :
    ((pain_score ≥ 7 ∨ swelling = true) →
      (evaluate_r0_acute_pain pain_score swelling defaultConfig.safety_rules).triggered = true ∧
      (evaluate_r0_acute_pain pain_score swelling defaultConfig.safety_rules).override_risk_level = some .red ∧
      (evaluate_r0_acute_pain pain_score swelling defaultConfig.safety_rules).max_allowed_intensity = some .z1 ∧
      (∀ s : SportType,
        s ∈ (evaluate_r0_acute_pain pain_score swelling defaultConfig.safety_rules).blocked_sports ↔ s ≠ .walk)) ∧
    ((pain_score < 7 ∧ swelling = false) →
      (evaluate_r0_acute_pain pain_score swelling defaultConfig.safety_rules).triggered = false ∧
      (evaluate_r0_acute_pain pain_score swelling defaultConfig.safety_rules).override_risk_level = none ∧
      (evaluate_r0_acute_pain pain_score swelling defaultConfig.safety_rules).max_allowed_intensity = none ∧
      (evaluate_r0_acute_pain pain_score swelling defaultConfig.safety_rules).blocked_sports = []) := by
  constructor
  · intro h
    have hcond : pain_score ≥ defaultConfig.safety_rules.r0_pain_threshold ∨
        (swelling = true ∧ defaultConfig.safety_rules.r0_swelling_triggers = true) := by
      rcases h with h | h
      · exact Or.inl h
      · exact Or.inr ⟨h, rfl⟩
    refine ⟨?_, ?_, ?_, ?_⟩ <;>
      simp only [evaluate_r0_acute_pain, if_pos hcond]
    intro s
    simp [List.mem_filter, mem_allSports s]
  · rintro ⟨hp, hs⟩
    have hcond : ¬(pain_score ≥ defaultConfig.safety_rules.r0_pain_threshold ∨
        (swelling = true ∧ defaultConfig.safety_rules.r0_swelling_triggers = true)) := by
      rintro (h | ⟨h, -⟩)
      · have h7 : defaultConfig.safety_rules.r0_pain_threshold = (7 : ℤ) := rfl
        rw [h7] at h
        omega
      · rw [hs] at h
        exact Bool.false_ne_true h
    refine ⟨?_, ?_, ?_, ?_⟩ <;>
      simp only [evaluate_r0_acute_pain, if_neg hcond]

/-- C1 witness: concrete instances of both branches of
`c1_r0_acute_red_flags`. -/
theorem c1_r0_acute_red_flags_witness :
    (evaluate_r0_acute_pain 8 false defaultConfig.safety_rules).triggered = true ∧
    (evaluate_r0_acute_pain 8 false defaultConfig.safety_rules).override_risk_level = some .red ∧
    (evaluate_r0_acute_pain 3 false defaultConfig.safety_rules).triggered = false :=
  ⟨((c1_r0_acute_red_flags 8 false).1 (Or.inl (by decide))).1,
   ((c1_r0_acute_red_flags 8 false).1 (Or.inl (by decide))).2.1,
   ((c1_r0_acute_red_flags 3 false).2 ⟨by decide, rfl⟩).1⟩

/-- C2: under the default cutoffs (`green_max = 35`, `yellow_max = 60`),
the final risk score is `max(h, yellow_max + 1)` under a RED override,
`max(h, green_max + 1)` under a YELLOW override, and `h` with no
override; the override never lowers the score (heuristic 90 with a
YELLOW override stays 90); and the level is GREEN for scores ≤ 35,
YELLOW for scores ≤ 60, RED otherwise (35 → GREEN, 36 → YELLOW,
61 → RED). -/
theorem c2_determine_risk_override (h : ℤ) (ev : SafetyEvaluation) :
    (ev.override_risk_level = some .red →
      (determine_risk risk_threshold_green_max risk_threshold_yellow_max h ev).1
        = Max.max h (risk_threshold_yellow_max + 1)) ∧
    (ev.override_risk_level = some .yellow →
      (determine_risk risk_threshold_green_max risk_threshold_yellow_max h ev).1
        = Max.max h (risk_threshold_green_max + 1)) ∧
    (ev.override_risk_level = none →
      (determine_risk risk_threshold_green_max risk_threshold_yellow_max h ev).1 = h) ∧
    h ≤ (determine_risk risk_threshold_green_max risk_threshold_yellow_max h ev).1 ∧
    ((determine_risk risk_threshold_green_max risk_threshold_yellow_max h ev).2 =
      if (determine_risk risk_threshold_green_max risk_threshold_yellow_max h ev).1 ≤ 35
      then RiskLevel.green
      else if (determine_risk risk_threshold_green_max risk_threshold_yellow_max h ev).1 ≤ 60
      then RiskLevel.yellow else RiskLevel.red) ∧
    (determine_risk risk_threshold_green_max risk_threshold_yellow_max 35
      emptySafetyEvaluation).2 = .green ∧
    (determine_risk risk_threshold_green_max risk_threshold_yellow_max 36
      emptySafetyEvaluation).2 = .yellow ∧
    (determine_risk risk_threshold_green_max risk_threshold_yellow_max 61
      emptySafetyEvaluation).2 = .red ∧
    (ev.override_risk_level = some .yellow →
      (determine_risk risk_threshold_green_max risk_threshold_yellow_max 90 ev).1 = 90) := by
  refine ⟨?_, ?_, ?_, ?_, ?_, by decide, by decide, by decide, ?_⟩
  · intro hov
    simp [determine_risk, hov, risk_threshold_yellow_max]
  · intro hov
    simp [determine_risk, hov, risk_threshold_green_max]
  · intro hov
    simp [determine_risk, hov]
  · rcases hov : ev.override_risk_level with _ | l
    · simp [determine_risk, hov]
    · cases l <;> simp [determine_risk, hov]
  · rfl
  · intro hov
    simp [determine_risk, hov, risk_threshold_green_max]

/-- C2 witness: concrete applications of `c2_determine_risk_override`
with each override level discharged. -/
theorem c2_determine_risk_override_witness :
    (determine_risk risk_threshold_green_max risk_threshold_yellow_max 10
      (overrideOnlyEvaluation .red)).1 = Max.max 10 (risk_threshold_yellow_max + 1) ∧
    (determine_risk risk_threshold_green_max risk_threshold_yellow_max 90
      (overrideOnlyEvaluation .yellow)).1 = 90 ∧
    (determine_risk risk_threshold_green_max risk_threshold_yellow_max 42
      emptySafetyEvaluation).1 = 42 :=
  ⟨(c2_determine_risk_override 10 (overrideOnlyEvaluation .red)).1 rfl,
   (c2_determine_risk_override 90 (overrideOnlyEvaluation .yellow)).2.2.2.2.2.2.2.2 rfl,
   (c2_determine_risk_override 42 emptySafetyEvaluation).2.2.1 rfl⟩

/-- C10: whenever `green_max < yellow_max`, a RED safety override forces
the returned risk level to RED, and a YELLOW override forces a level that
is never GREEN. -/
theorem c10_override_guarantees_level (green_max yellow_max h : ℤ)
    (ev : SafetyEvaluation) (hlt : green_max < yellow_max) :
    (ev.override_risk_level = some .red →
      (determine_risk green_max yellow_max h ev).2 = .red) ∧
    (ev.override_risk_level = some .yellow →
      (determine_risk green_max yellow_max h ev).2 ≠ .green) := by
  constructor
  · intro hov
    have hge : yellow_max + 1 ≤ Max.max h (yellow_max + 1) := le_max_right _ _
    simp only [determine_risk, hov]
    rw [if_neg (by omega), if_neg (by omega)]
  · intro hov
    have hge : green_max + 1 ≤ Max.max h (green_max + 1) := le_max_right _ _
    simp only [determine_risk, hov]
    rw [if_neg (by omega)]
    split <;> simp

/-- C10 witness: concrete application of `c10_override_guarantees_level`
at the default cutoffs. -/
theorem c10_override_guarantees_level_witness :
    (determine_risk 35 60 5 (overrideOnlyEvaluation .red)).2 = .red ∧
    (determine_risk 35 60 5 (overrideOnlyEvaluation .yellow)).2 ≠ .green :=
  ⟨(c10_override_guarantees_level 35 60 5 (overrideOnlyEvaluation .red) (by decide)).1 rfl,
   (c10_override_guarantees_level 35 60 5 (overrideOnlyEvaluation .yellow) (by decide)).2 rfl⟩

/-- C3: the heuristic `final_score` is `min(100, max(0, round(score)))`
— rounding first, then the clamp — hence always within `[0, 100]`, equal
to 100 whenever the rounded raw score reaches 100, and equal to 0
whenever the rounded raw score is non-positive. -/
theorem c3_final_score_clamped (cfg : ScoringConfig) (features : UserFeatures)
    (sport : SportType) (intensity : Option IntensityZone)
    (split : Option GymSplit) :
    (calculate_heuristic_score cfg features sport intensity split).1 =
      Min.min 100 (Max.max 0
        (pyRound (raw_heuristic_score cfg features sport intensity split))) ∧
    0 ≤ (calculate_heuristic_score cfg features sport intensity split).1 ∧
    (calculate_heuristic_score cfg features sport intensity split).1 ≤ 100 ∧
    (100 ≤ pyRound (raw_heuristic_score cfg features sport intensity split) →
      (calculate_heuristic_score cfg features sport intensity split).1 = 100) ∧
    (pyRound (raw_heuristic_score cfg features sport intensity split) ≤ 0 →
      (calculate_heuristic_score cfg features sport intensity split).1 = 0) := by
  have hdef : (calculate_heuristic_score cfg features sport intensity split).1 =
      Min.min 100 (Max.max 0
        (pyRound (raw_heuristic_score cfg features sport intensity split))) := rfl
  refine ⟨hdef, ?_, ?_, ?_, ?_⟩ <;> rw [hdef] <;> omega

/-- Feature snapshot whose default-config contributions sum to 242 and
whose raw score is 323.6, overshooting the 100 cap. -/
def overshootFeatures : UserFeatures :=
  { hrv_z := some (-2)
    rhr_delta := some 10
    sleep_delta := some (-100)
    acwr := some (8/5)
    consecutive_training_days := 6
    pain_score := 10
    pain_trend_3d := 3
    max_soreness := 10
    soreness_map := fun _ => 10
    readiness := 2
    fatigue := 8 }

/-- A configuration with a negative pain weight, driving the raw score
below zero. -/
def negativePainConfig : ScoringConfig :=
  { defaultConfig with pain := { points_per_level := -5 } }

/-- Feature snapshot with pain 10 and no missing-data penalty. -/
def negativeScoreFeatures : UserFeatures :=
  { pain_score := 10
    missing_hrv := false
    missing_sleep := false
    missing_rhr := false }

/-- C3 witness: `c3_final_score_clamped` applied at an overshooting
input (clamps to exactly 100) and at a negative-score input (clamps to
exactly 0). -/
theorem c3_final_score_clamped_witness :
    (calculate_heuristic_score defaultConfig overshootFeatures .run
      (some .max) none).1 = 100 ∧
    (calculate_heuristic_score negativePainConfig negativeScoreFeatures .walk
      (some .z1) none).1 = 0 := by
  have hraw1 : raw_heuristic_score defaultConfig overshootFeatures .run
      (some .max) none = 1618/5 := by
    simp only [raw_heuristic_score, evaluate_lower_threshold,
      evaluate_upper_threshold, get_soreness_in_target_muscles,
      SPORT_MUSCLE_MAP, get_sport_impact_score, SPORT_IMPACT_MAP,
      get_intensity_score, INTENSITY_ZONE_NUMERIC, defaultConfig,
      overshootFeatures]
    norm_num
  have hround1 : pyRound (1618/5) = 324 := by
    have h : ⌊(1618/5 : ℚ)⌋ = 323 := by
      rw [Int.floor_eq_iff]
      norm_num
    simp only [pyRound, h]
    norm_num
  have hraw2 : raw_heuristic_score negativePainConfig negativeScoreFeatures
      .walk (some .z1) none = -45 := by
    simp only [raw_heuristic_score, evaluate_lower_threshold,
      evaluate_upper_threshold, get_soreness_in_target_muscles,
      SPORT_MUSCLE_MAP, get_sport_impact_score, SPORT_IMPACT_MAP,
      get_intensity_score, INTENSITY_ZONE_NUMERIC, defaultConfig,
      negativePainConfig, negativeScoreFeatures]
    norm_num
  have hround2 : pyRound (-45) = -45 := by
    have h : ⌊(-45 : ℚ)⌋ = -45 := by
      rw [Int.floor_eq_iff]
      norm_num
    simp only [pyRound, h]
    norm_num
  refine ⟨?_, ?_⟩
  · exact (c3_final_score_clamped defaultConfig overshootFeatures .run
      (some .max) none).2.2.2.1 (by rw [hraw1, hround1]; omega)
  · exact (c3_final_score_clamped negativePainConfig negativeScoreFeatures .walk
      (some .z1) none).2.2.2.2 (by rw [hraw2, hround2]; omega)

/-- The consecutive-days contribution recorded in the breakdown is the
generic upper-threshold evaluation of the day count. -/
lemma breakdown_consecutive_days (cfg : ScoringConfig) (features : UserFeatures)
    (sport : SportType) (intensity : Option IntensityZone)
    (split : Option GymSplit) :
    (calculate_heuristic_score cfg features sport intensity
        split).2.consecutive_days_contribution =
      (evaluate_upper_threshold (some (features.consecutive_training_days : ℚ))
        cfg.training_load.consecutive_severe_threshold
        cfg.training_load.consecutive_moderate_threshold
        cfg.training_load.consecutive_mild_threshold
        cfg.training_load.consecutive_severe_points
        cfg.training_load.consecutive_moderate_points
        cfg.training_load.consecutive_mild_points).contribution := rfl

/-- The ACWR contribution recorded in the breakdown is the bespoke
four-branch step rule. -/
lemma breakdown_acwr (cfg : ScoringConfig) (features : UserFeatures)
    (sport : SportType) (intensity : Option IntensityZone)
    (split : Option GymSplit) :
    (calculate_heuristic_score cfg features sport intensity
        split).2.acwr_contribution =
      (match features.acwr with
       | none => 0
       | some v =>
         if v > cfg.acwr.critical_threshold then cfg.acwr.critical_points
         else if v > cfg.acwr.elevated_threshold then cfg.acwr.elevated_points
         else if v > cfg.acwr.warning_threshold then cfg.acwr.warning_points
         else if v < cfg.acwr.detraining_threshold then cfg.acwr.detraining_points
         else 0) := rfl

/-- Modelled from the claim's words (C4): a consecutive-days tiering
with greater-or-equal semantics against the default thresholds — severe
points when `n ≥ 5`, moderate when `4 ≤ n < 5`, mild when `3 ≤ n < 4`,
else 0. -/
def claimedConsecutiveContribution (n : ℕ) : ℚ :=
  if n ≥ 5 then 15 else if n ≥ 4 then 8 else if n ≥ 3 then 4 else 0

/-- C4 counterexample: at exactly 5 consecutive training days the code
awards the moderate points (8), while the claim's greater-or-equal
tiering demands the severe points (15). -/
theorem c4_counterexample :
    (calculate_heuristic_score defaultConfig { consecutive_training_days := 5 }
        .run none none).2.consecutive_days_contribution = 8 ∧
    claimedConsecutiveContribution 5 = 15 ∧ (8 : ℚ) ≠ 15 := by
  refine ⟨?_, by norm_num [claimedConsecutiveContribution], by norm_num⟩
  rw [breakdown_consecutive_days]
  simp only [evaluate_upper_threshold]
  norm_num [defaultConfig]

/-- C4 (amended): the consecutive-days contribution goes through the
generic strict greater-than evaluator — with default thresholds it is the
severe points (15) when `n > 5`, the moderate points (8) when `4 < n ≤ 5`,
the mild points (4) when `3 < n ≤ 4`, and 0 otherwise. -/
theorem c4_consecutive_days_strict_gt (features : UserFeatures)
    (sport : SportType) (intensity : Option IntensityZone)
    (split : Option GymSplit) :
    (calculate_heuristic_score defaultConfig features sport intensity
        split).2.consecutive_days_contribution =
      if features.consecutive_training_days > 5 then 15
      else if features.consecutive_training_days > 4 then 8
      else if features.consecutive_training_days > 3 then 4
      else 0 := by
  rw [breakdown_consecutive_days]
  simp only [evaluate_upper_threshold]
  have c5 : (((features.consecutive_training_days : ℚ)) >
      defaultConfig.training_load.consecutive_severe_threshold) ↔
      (features.consecutive_training_days > 5) := by
    show ((features.consecutive_training_days : ℚ) > (5 : ℚ)) ↔ _
    exact_mod_cast Iff.rfl
  have c4i : (((features.consecutive_training_days : ℚ)) >
      defaultConfig.training_load.consecutive_moderate_threshold) ↔
      (features.consecutive_training_days > 4) := by
    show ((features.consecutive_training_days : ℚ) > (4 : ℚ)) ↔ _
    exact_mod_cast Iff.rfl
  have c3i : (((features.consecutive_training_days : ℚ)) >
      defaultConfig.training_load.consecutive_mild_threshold) ↔
      (features.consecutive_training_days > 3) := by
    show ((features.consecutive_training_days : ℚ) > (3 : ℚ)) ↔ _
    exact_mod_cast Iff.rfl
  simp only [c5, c4i, c3i]
  split_ifs <;> rfl

/-- C7: for the default configuration, the ACWR contribution is the
four-band step function checked in priority order critical > elevated >
warning > detraining; an absent ACWR contributes 0; and concretely 1.6
contributes 25, 1.0 contributes 0, and 0.6 contributes 3. -/
theorem c7_acwr_step (features : UserFeatures) (sport : SportType)
    (intensity : Option IntensityZone) (split : Option GymSplit) (v : ℚ) :
    (features.acwr = some v →
      (calculate_heuristic_score defaultConfig features sport intensity
          split).2.acwr_contribution =
        if v > 3/2 then 25 else if v > 13/10 then 15
        else if v > 12/10 then 8 else if v < 8/10 then 3 else 0) ∧
    (features.acwr = none →
      (calculate_heuristic_score defaultConfig features sport intensity
          split).2.acwr_contribution = 0) ∧
    (calculate_heuristic_score defaultConfig { acwr := some (8/5) } sport
        intensity split).2.acwr_contribution = 25 ∧
    (calculate_heuristic_score defaultConfig { acwr := some 1 } sport
        intensity split).2.acwr_contribution = 0 ∧
    (calculate_heuristic_score defaultConfig { acwr := some (3/5) } sport
        intensity split).2.acwr_contribution = 3 := by
  refine ⟨?_, ?_, ?_, ?_, ?_⟩
  · intro h
    rw [breakdown_acwr, h]
    rfl
  · intro h
    rw [breakdown_acwr, h]
  · rw [breakdown_acwr]
    norm_num [defaultConfig]
  · rw [breakdown_acwr]
    norm_num [defaultConfig]
  · rw [breakdown_acwr]
    norm_num [defaultConfig]

/-- C7 witness: `c7_acwr_step` applied at ACWR 1.6 with its hypothesis
discharged. -/
theorem c7_acwr_step_witness :
    (calculate_heuristic_score defaultConfig { acwr := some (8/5) } .run none
        none).2.acwr_contribution = 25 := by
  rw [(c7_acwr_step { acwr := some (8/5) } .run none none (8/5)).1 rfl]
  norm_num

/-- The final score is the clamp of the rounded raw score. -/
lemma final_score_eq (cfg : ScoringConfig) (features : UserFeatures)
    (sport : SportType) (intensity : Option IntensityZone)
    (split : Option GymSplit) :
    (calculate_heuristic_score cfg features sport intensity split).1 =
      Min.min 100 (Max.max 0
        (pyRound (raw_heuristic_score cfg features sport intensity split))) := rfl

/-- The intensity multiplier recorded in the breakdown. -/
lemma breakdown_multiplier (cfg : ScoringConfig) (features : UserFeatures)
    (sport : SportType) (intensity : Option IntensityZone)
    (split : Option GymSplit) :
    (calculate_heuristic_score cfg features sport intensity
        split).2.intensity_multiplier =
      1 + ((get_sport_impact_score sport : ℚ) + (get_intensity_score intensity : ℚ)
        - cfg.intensity_multiplier.neutral_base)
        * cfg.intensity_multiplier.scaling_factor := rfl

/-- On the all-defaults (empty history) feature snapshot with a planned
moderate run, the heuristic final score is exactly 9. -/
lemma empty_features_run_final_score :
    (calculate_heuristic_score defaultConfig {} .run (some .tempo) none).1 = 9 := by
  have hraw : raw_heuristic_score defaultConfig {} .run (some .tempo) none = 9 := by
    simp only [raw_heuristic_score, evaluate_lower_threshold,
      evaluate_upper_threshold, get_soreness_in_target_muscles,
      SPORT_MUSCLE_MAP, get_sport_impact_score, SPORT_IMPACT_MAP,
      get_intensity_score, INTENSITY_ZONE_NUMERIC, defaultConfig]
    norm_num
  have hround : pyRound 9 = 9 := by
    have h : ⌊(9 : ℚ)⌋ = 9 := by
      rw [Int.floor_eq_iff]
      norm_num
    simp only [pyRound, h]
    norm_num
  rw [final_score_eq, hraw, hround]
  decide

/-- C6 counterexample: for the empty-history snapshot and a planned
moderate run, the code's final score is 9 (the bare missing-data
penalty), while the claim's value — the penalty scaled by the
sport/intensity multiplier — rounds to 10. -/
theorem c6_counterexample :
    (calculate_heuristic_score defaultConfig {} .run (some .tempo) none).1 = 9 ∧
    pyRound (((3 : ℚ) * 3) *
      (calculate_heuristic_score defaultConfig {} .run (some .tempo)
        none).2.intensity_multiplier) = 10 ∧
    (9 : ℤ) ≠ 10 := by
  refine ⟨empty_features_run_final_score, ?_, by decide⟩
  rw [breakdown_multiplier]
  have h1 : ((3 : ℚ) * 3) * (1 + ((get_sport_impact_score .run : ℚ)
      + (get_intensity_score (some .tempo) : ℚ)
      - defaultConfig.intensity_multiplier.neutral_base)
      * defaultConfig.intensity_multiplier.scaling_factor) = 207/20 := by
    simp only [get_sport_impact_score, SPORT_IMPACT_MAP, get_intensity_score,
      INTENSITY_ZONE_NUMERIC, defaultConfig]
    norm_num
  rw [h1]
  have h2 : ⌊(207/20 : ℚ)⌋ = 10 := by
    rw [Int.floor_eq_iff]
    norm_num
  simp only [pyRound, h2]
  norm_num

/-- C6 (amended): for the empty-history feature snapshot (all defaults:
pain 0, soreness 0, readiness 7, fatigue 3, all three missing-flags
true, no loads) and a planned moderate-intensity run, every signal
contribution is zero, the base score is zero, and the final score is
exactly the unscaled missing-data penalty 3 × 3 = 9 — the multiplier
(1.15) applies only to the zero base score — with resulting risk level
GREEN. -/
theorem c6_empty_history_penalty_green :
    (calculate_heuristic_score defaultConfig {} .run (some .tempo)
        none).2.hrv_contribution = 0 ∧
    (calculate_heuristic_score defaultConfig {} .run (some .tempo)
        none).2.rhr_contribution = 0 ∧
    (calculate_heuristic_score defaultConfig {} .run (some .tempo)
        none).2.sleep_contribution = 0 ∧
    (calculate_heuristic_score defaultConfig {} .run (some .tempo)
        none).2.acwr_contribution = 0 ∧
    (calculate_heuristic_score defaultConfig {} .run (some .tempo)
        none).2.pain_contribution = 0 ∧
    (calculate_heuristic_score defaultConfig {} .run (some .tempo)
        none).2.pain_trend_contribution = 0 ∧
    (calculate_heuristic_score defaultConfig {} .run (some .tempo)
        none).2.target_soreness_contribution = 0 ∧
    (calculate_heuristic_score defaultConfig {} .run (some .tempo)
        none).2.general_soreness_contribution = 0 ∧
    (calculate_heuristic_score defaultConfig {} .run (some .tempo)
        none).2.readiness_contribution = 0 ∧
    (calculate_heuristic_score defaultConfig {} .run (some .tempo)
        none).2.fatigue_contribution = 0 ∧
    (calculate_heuristic_score defaultConfig {} .run (some .tempo)
        none).2.consecutive_days_contribution = 0 ∧
    (calculate_heuristic_score defaultConfig {} .run (some .tempo)
        none).2.base_score = 0 ∧
    (calculate_heuristic_score defaultConfig {} .run (some .tempo)
        none).2.intensity_multiplier = 23/20 ∧
    (calculate_heuristic_score defaultConfig {} .run (some .tempo)
        none).2.missing_data_penalty = 9 ∧
    (calculate_heuristic_score defaultConfig {} .run (some .tempo)
        none).1 = 9 ∧
    (determine_risk risk_threshold_green_max risk_threshold_yellow_max
      (calculate_heuristic_score defaultConfig {} .run (some .tempo) none).1
      (evaluate_all_safety_rules 0 false (fun _ => 0) .run none (some .tempo)
        none none false defaultConfig.safety_rules)).2 = .green := by
  refine ⟨?_, ?_, ?_, ?_, ?_, ?_, ?_, ?_, ?_, ?_, ?_, ?_, ?_, ?_,
    empty_features_run_final_score,
    by rw [empty_features_run_final_score]; decide⟩
  all_goals
    simp only [calculate_heuristic_score, evaluate_lower_threshold,
      evaluate_upper_threshold, get_soreness_in_target_muscles,
      SPORT_MUSCLE_MAP, get_sport_impact_score, SPORT_IMPACT_MAP,
      get_intensity_score, INTENSITY_ZONE_NUMERIC, defaultConfig]
    try norm_num

/-- C5 counterexample: on the RED branch the fixed walk recommendation
differs from the planned sport (run) yet carries
`is_original_plan_modified = false`. -/
theorem c5_counterexample :
    (generate_recommendations .red [] [] .run 60 (some .tempo)
        none).1.sport_type ≠ SportType.run ∧
    (generate_recommendations .red [] [] .run 60 (some .tempo)
        none).1.is_original_plan_modified = false := by
  constructor
  · decide
  · rfl

/-- C5 (amended): `is_original_plan_modified` is true exactly on the
YELLOW branch's Recommendation A (including the GREEN branch's
fall-through when the planned sport is blocked); the YELLOW branch's
Recommendation B, the GREEN branch's two recommendations, and the RED
branch's fixed walk/swim recommendations leave the flag false even when
they differ from the original plan. -/
theorem c5_modified_flag (bs : List SportType) (bm : List MuscleRegion)
    (sport : SportType) (dur : ℤ) (intensity : Option IntensityZone)
    (split : Option GymSplit) :
    (yellow_recommendations bs bm sport dur intensity
        split).1.is_original_plan_modified = true ∧
    (yellow_recommendations bs bm sport dur intensity
        split).2.is_original_plan_modified = false ∧
    red_recommendations.1.is_original_plan_modified = false ∧
    red_recommendations.2.is_original_plan_modified = false ∧
    (sport ∉ bs →
      (generate_recommendations .green bs bm sport dur intensity
          split).1.is_original_plan_modified = false ∧
      (generate_recommendations .green bs bm sport dur intensity
          split).2.is_original_plan_modified = false) ∧
    (sport ∈ bs →
      generate_recommendations .green bs bm sport dur intensity split =
        yellow_recommendations bs bm sport dur intensity split) ∧
    (generate_recommendations .yellow bs bm sport dur intensity split =
      yellow_recommendations bs bm sport dur intensity split) ∧
    (generate_recommendations .red bs bm sport dur intensity split =
      red_recommendations) := by
  refine ⟨?_, rfl, rfl, rfl, ?_, ?_, rfl, rfl⟩
  · simp only [yellow_recommendations]
    split <;> rfl
  · intro h
    simp only [generate_recommendations, green_recommendations, if_neg h]
    constructor <;> trivial
  · intro h
    simp only [generate_recommendations, green_recommendations, if_pos h]

/-- C5 witness: `c5_modified_flag` applied at a concrete unblocked plan
(GREEN keeps the flag false) and the flag on a concrete YELLOW
modification. -/
theorem c5_modified_flag_witness :
    (generate_recommendations .green [] [] .run 60 (some .tempo)
        none).1.is_original_plan_modified = false ∧
    (yellow_recommendations [] [] .run 60 (some .tempo)
        none).1.is_original_plan_modified = true :=
  ⟨((c5_modified_flag [] [] .run 60 (some .tempo) none).2.2.2.2.1
      (by simp)).1,
   (c5_modified_flag [] [] .run 60 (some .tempo) none).1⟩

/-- R0 never blocks walking. -/
lemma r0_walk_not_blocked (pain_score : ℤ) (swelling : Bool)
    (config : SafetyRulesConfig) :
    SportType.walk ∉ (evaluate_r0_acute_pain pain_score swelling
      config).blocked_sports := by
  simp only [evaluate_r0_acute_pain]
  split
  · simp [List.mem_filter]
  · simp

/-- R1 never blocks walking. -/
lemma r1_walk_not_blocked (pain_score : ℤ) (planned_sport : SportType)
    (config : SafetyRulesConfig) :
    SportType.walk ∉ (evaluate_r1_moderate_pain_impact pain_score planned_sport
      config).blocked_sports := by
  simp only [evaluate_r1_moderate_pain_impact]
  split
  · simp [HIGH_IMPACT_SPORTS]
  · simp

/-- R2 blocks no sports at all. -/
lemma r2_blocked_sports_nil (soreness_map : MuscleRegion → ℤ)
    (planned_sport : SportType) (planned_gym_split : Option GymSplit)
    (config : SafetyRulesConfig) :
    (evaluate_r2_doms soreness_map planned_sport planned_gym_split
      config).blocked_sports = [] := by
  simp only [evaluate_r2_doms]
  split <;> rfl

/-- R3 blocks no sports at all. -/
lemma r3_blocked_sports_nil (hrv_z : Option ℚ) (rhr_delta : Option ℚ)
    (config : SafetyRulesConfig) :
    (evaluate_r3_recovery_markers hrv_z rhr_delta config).blocked_sports = [] := by
  simp only [evaluate_r3_recovery_markers]
  split <;> first | rfl | (split <;> first | rfl | (split <;> rfl))

/-- R4 blocks no sports at all. -/
lemma r4_blocked_sports_nil (hard_session_today : Bool)
    (planned_intensity : Option IntensityZone) :
    (evaluate_r4_two_a_day hard_session_today planned_intensity).blocked_sports
      = [] := by
  simp only [evaluate_r4_two_a_day]
  split <;> rfl

/-- Membership in a fold that appends each element's projected list. -/
lemma mem_foldl_append {α β : Type} (x : α) (f : β → List α) :
    ∀ (l : List β) (acc : List α),
      (x ∈ l.foldl (fun a b => a ++ f b) acc ↔ x ∈ acc ∨ ∃ b ∈ l, x ∈ f b) := by
  intro l
  induction l with
  | nil => simp
  | cons hd tl ih =>
    intro acc
    rw [List.foldl_cons, ih]
    simp [List.mem_append, or_assoc]

/-- The low-impact fallback chain never returns a blocked sport as long
as walking is not blocked. -/
lemma get_low_impact_sport_not_blocked (blocked : List SportType)
    (h : SportType.walk ∉ blocked) :
    get_low_impact_sport blocked ∉ blocked := by
  unfold get_low_impact_sport
  cases hf : [SportType.bike, SportType.swim, SportType.walk,
      SportType.gym].find? (fun s => !(blocked.contains s)) with
  | none =>
    exfalso
    have hw := List.find?_eq_none.mp hf SportType.walk (by simp)
    simp only [Bool.not_eq_true', Bool.not_eq_false] at hw
    exact h (by simpa using hw)
  | some s =>
    have hp := List.find?_some hf
    simp only [Bool.not_eq_true'] at hp
    simpa using hp

/-- C9: the combined safety evaluation never blocks walking — R0 blocks
everything except walk, R1 blocks only the fixed high-impact set, and
R2-R4 block no sports — so the recommendation engine's low-impact
fallback chain always returns a non-blocked sport. -/
theorem c9_walk_never_blocked (pain_score : ℤ) (swelling : Bool)
    (soreness_map : MuscleRegion → ℤ) (planned_sport : SportType)
    (planned_gym_split : Option GymSplit)
    (planned_intensity : Option IntensityZone)
    (hrv_z : Option ℚ) (rhr_delta : Option ℚ) (hard_session_today : Bool)
    (config : SafetyRulesConfig) :
    SportType.walk ∉ (evaluate_all_safety_rules pain_score swelling
      soreness_map planned_sport planned_gym_split planned_intensity hrv_z
      rhr_delta hard_session_today config).blocked_sports ∧
    get_low_impact_sport (evaluate_all_safety_rules pain_score swelling
      soreness_map planned_sport planned_gym_split planned_intensity hrv_z
      rhr_delta hard_session_today config).blocked_sports ∉
      (evaluate_all_safety_rules pain_score swelling soreness_map
        planned_sport planned_gym_split planned_intensity hrv_z rhr_delta
        hard_session_today config).blocked_sports := by
  have hwalk : SportType.walk ∉ (evaluate_all_safety_rules pain_score swelling
      soreness_map planned_sport planned_gym_split planned_intensity hrv_z
      rhr_delta hard_session_today config).blocked_sports := by
    simp only [evaluate_all_safety_rules, List.mem_dedup]
    rw [mem_foldl_append]
    rintro (h | ⟨r, hr, hmem⟩)
    · simp at h
    · have hr5 := List.mem_filter.mp hr
      have hcases := hr5.1
      simp only [List.mem_cons, List.not_mem_nil, or_false] at hcases
      rcases hcases with rfl | rfl | rfl | rfl | rfl
      · exact r0_walk_not_blocked pain_score swelling config hmem
      · exact r1_walk_not_blocked pain_score planned_sport config hmem
      · rw [r2_blocked_sports_nil] at hmem
        simp at hmem
      · rw [r3_blocked_sports_nil] at hmem
        simp at hmem
      · rw [r4_blocked_sports_nil] at hmem
        simp at hmem
  exact ⟨hwalk, get_low_impact_sport_not_blocked _ hwalk⟩

/-- An out-of-enumeration sport string makes `parse_sport` fail with the
`ValueError` message naming the value. -/
lemma parse_sport_err (s : String) (h : s ∉ allSports.map SportType.value) :
    parse_sport s = .error ("'" ++ s ++ "' is not a valid SportType") := by
  unfold parse_sport
  rw [List.find?_eq_none.mpr]
  intro t ht
  simp only [Bool.not_eq_true, decide_eq_false_iff_not]
  intro heq
  exact h (List.mem_map.mpr ⟨t, ht, heq⟩)

/-- An in-enumeration sport string parses successfully. -/
lemma parse_sport_ok (s : String) (h : s ∈ allSports.map SportType.value) :
    ∃ t, parse_sport s = .ok t := by
  unfold parse_sport
  obtain ⟨t, ht, rfl⟩ := List.mem_map.mp h
  have hsome : (allSports.find? (fun u => u.value = t.value)).isSome :=
    List.find?_isSome.mpr ⟨t, ht, by simp⟩
  cases hf : allSports.find? (fun u => u.value = t.value) with
  | none => rw [hf] at hsome; simp at hsome
  | some u => exact ⟨u, rfl⟩

/-- An out-of-enumeration intensity string makes `parse_intensity` fail
with the `ValueError` message naming the value. -/
lemma parse_intensity_err (s : String)
    (h : s ∉ allZones.map IntensityZone.value) :
    parse_intensity s = .error ("'" ++ s ++ "' is not a valid IntensityZone") := by
  unfold parse_intensity
  rw [List.find?_eq_none.mpr]
  intro z hz
  simp only [Bool.not_eq_true, decide_eq_false_iff_not]
  intro heq
  exact h (List.mem_map.mpr ⟨z, hz, heq⟩)

/-- An in-enumeration intensity string parses successfully. -/
lemma parse_intensity_ok (s : String) (h : s ∈ allZones.map IntensityZone.value) :
    ∃ z, parse_intensity s = .ok z := by
  unfold parse_intensity
  obtain ⟨z, hz, rfl⟩ := List.mem_map.mp h
  have hsome : (allZones.find? (fun u => u.value = z.value)).isSome :=
    List.find?_isSome.mpr ⟨z, hz, by simp⟩
  cases hf : allZones.find? (fun u => u.value = z.value) with
  | none => rw [hf] at hsome; simp at hsome
  | some u => exact ⟨u, rfl⟩

/-- An out-of-enumeration gym-split string makes `parse_gym_split` fail
with the `ValueError` message naming the value. -/
lemma parse_gym_split_err (s : String)
    (h : s ∉ allSplits.map GymSplit.value) :
    parse_gym_split s = .error ("'" ++ s ++ "' is not a valid GymSplit") := by
  unfold parse_gym_split
  rw [List.find?_eq_none.mpr]
  intro g hg
  simp only [Bool.not_eq_true, decide_eq_false_iff_not]
  intro heq
  exact h (List.mem_map.mpr ⟨g, hg, heq⟩)

/-- An in-enumeration gym-split string parses successfully. -/
lemma parse_gym_split_ok (s : String) (h : s ∈ allSplits.map GymSplit.value) :
    ∃ g, parse_gym_split s = .ok g := by
  unfold parse_gym_split
  obtain ⟨g, hg, rfl⟩ := List.mem_map.mp h
  have hsome : (allSplits.find? (fun u => u.value = g.value)).isSome :=
    List.find?_isSome.mpr ⟨g, hg, by simp⟩
  cases hf : allSplits.find? (fun u => u.value = g.value) with
  | none => rw [hf] at hsome; simp at hsome
  | some u => exact ⟨u, rfl⟩

/-- C8 counterexample: the empty string is not a member of the
intensity enumeration, yet a session carrying it completes evaluation
without any validation error — the Python truthiness guard coerces `""`
to `None` and scoring proceeds. -/
theorem c8_counterexample :
    ("" ∉ allZones.map IntensityZone.value) ∧
    (evaluate_session defaultConfig risk_threshold_green_max
      risk_threshold_yellow_max {}
      { sport_type := "run", planned_duration_minutes := 60,
        planned_intensity := some "" }).isOk = true := by
  constructor
  · decide
  · rfl

/-- C8 (amended): an out-of-enumeration sport string always fails fast
with the `ValueError`-style message naming the value; a *non-empty*
out-of-enumeration intensity or gym-split string likewise fails fast;
the empty intensity/split string is falsy in Python, is silently
treated as absent, and evaluation completes; and every session whose
strings are in the enumerations (or empty/absent for intensity and
split) completes without error. -/
theorem c8_validation_fail_fast (features : UserFeatures)
    (sess : PlannedSessionInput) :
    (sess.sport_type ∉ allSports.map SportType.value →
      evaluate_session defaultConfig risk_threshold_green_max
        risk_threshold_yellow_max features sess =
        .error ("'" ++ sess.sport_type ++ "' is not a valid SportType")) ∧
    (∀ s, sess.sport_type ∈ allSports.map SportType.value →
      sess.planned_intensity = some s → s ≠ "" →
      s ∉ allZones.map IntensityZone.value →
      evaluate_session defaultConfig risk_threshold_green_max
        risk_threshold_yellow_max features sess =
        .error ("'" ++ s ++ "' is not a valid IntensityZone")) ∧
    (∀ s, sess.sport_type ∈ allSports.map SportType.value →
      (sess.planned_intensity = none ∨ sess.planned_intensity = some "" ∨
        ∃ z, sess.planned_intensity = some (IntensityZone.value z)) →
      sess.gym_split = some s → s ≠ "" →
      s ∉ allSplits.map GymSplit.value →
      evaluate_session defaultConfig risk_threshold_green_max
        risk_threshold_yellow_max features sess =
        .error ("'" ++ s ++ "' is not a valid GymSplit")) ∧
    (sess.sport_type ∈ allSports.map SportType.value →
      (sess.planned_intensity = none ∨ sess.planned_intensity = some "" ∨
        ∃ z, sess.planned_intensity = some (IntensityZone.value z)) →
      (sess.gym_split = none ∨ sess.gym_split = some "" ∨
        ∃ g, sess.gym_split = some (GymSplit.value g)) →
      (evaluate_session defaultConfig risk_threshold_green_max
        risk_threshold_yellow_max features sess).isOk = true) := by
  refine ⟨?_, ?_, ?_, ?_⟩
  · intro h
    have hp := parse_sport_err sess.sport_type h
    simp only [evaluate_session, hp]
    rfl
  · intro s hsport hint hne h
    obtain ⟨t, hpt⟩ := parse_sport_ok sess.sport_type hsport
    have hpi := parse_intensity_err s h
    simp only [evaluate_session, hpt, hint, if_neg hne, hpi]
    rfl
  · intro s hsport hint hsplit hne h
    obtain ⟨t, hpt⟩ := parse_sport_ok sess.sport_type hsport
    have hpg := parse_gym_split_err s h
    rcases hint with hnone | hempty | ⟨z, hz⟩
    · simp only [evaluate_session, hpt, hnone, hsplit, if_neg hne, hpg]
      rfl
    · simp only [evaluate_session, hpt, hempty, hsplit, if_neg hne, hpg]
      rfl
    · have hvne : IntensityZone.value z ≠ "" := by
        cases z <;> simp [IntensityZone.value]
      obtain ⟨zz, hpz⟩ := parse_intensity_ok (IntensityZone.value z)
        (List.mem_map.mpr ⟨z, by cases z <;> simp [allZones], rfl⟩)
      simp only [evaluate_session, hpt, hz, if_neg hvne, hpz, hsplit,
        if_neg hne, hpg]
      rfl
  · intro hsport hint hsplit
    obtain ⟨t, hpt⟩ := parse_sport_ok sess.sport_type hsport
    have hzok : ∀ z : IntensityZone, IntensityZone.value z ≠ "" ∧
        (∃ zz, parse_intensity (IntensityZone.value z) = .ok zz) := fun z =>
      ⟨by cases z <;> simp [IntensityZone.value],
       parse_intensity_ok (IntensityZone.value z)
         (List.mem_map.mpr ⟨z, by cases z <;> simp [allZones], rfl⟩)⟩
    have hgok : ∀ g : GymSplit, GymSplit.value g ≠ "" ∧
        (∃ gg, parse_gym_split (GymSplit.value g) = .ok gg) := fun g =>
      ⟨by cases g <;> simp [GymSplit.value],
       parse_gym_split_ok (GymSplit.value g)
         (List.mem_map.mpr ⟨g, by cases g <;> simp [allSplits], rfl⟩)⟩
    rcases hint with hnone | hiempty | ⟨z, hz⟩ <;>
      rcases hsplit with gnone | hgempty | ⟨g, hg⟩
    · simp only [evaluate_session, hpt, hnone, gnone]
      rfl
    · simp only [evaluate_session, hpt, hnone, hgempty]
      rfl
    · obtain ⟨hgne, gg, hpg⟩ := hgok g
      simp only [evaluate_session, hpt, hnone, hg, if_neg hgne, hpg]
      rfl
    · simp only [evaluate_session, hpt, hiempty, gnone]
      rfl
    · simp only [evaluate_session, hpt, hiempty, hgempty]
      rfl
    · obtain ⟨hgne, gg, hpg⟩ := hgok g
      simp only [evaluate_session, hpt, hiempty, hg, if_neg hgne, hpg]
      rfl
    · obtain ⟨hzne, zz, hpz⟩ := hzok z
      simp only [evaluate_session, hpt, hz, if_neg hzne, hpz, gnone]
      rfl
    · obtain ⟨hzne, zz, hpz⟩ := hzok z
      simp only [evaluate_session, hpt, hz, if_neg hzne, hpz, hgempty]
      rfl
    · obtain ⟨hzne, zz, hpz⟩ := hzok z
      obtain ⟨hgne, gg, hpg⟩ := hgok g
      simp only [evaluate_session, hpt, hz, if_neg hzne, hpz, hg,
        if_neg hgne, hpg]
      rfl

/-- C8 witness: `c8_validation_fail_fast` applied at a concrete unknown
sport string (fails with the message naming it), at a concrete
non-empty unknown intensity string (fails naming it), and at concrete
valid sessions — one with a real intensity, one with the falsy empty
string — that both succeed. -/
theorem c8_validation_fail_fast_witness :
    evaluate_session defaultConfig risk_threshold_green_max
      risk_threshold_yellow_max {}
      { sport_type := "soccer", planned_duration_minutes := 60 } =
      .error "'soccer' is not a valid SportType" ∧
    evaluate_session defaultConfig risk_threshold_green_max
      risk_threshold_yellow_max {}
      { sport_type := "run", planned_duration_minutes := 60,
        planned_intensity := some "sprint" } =
      .error "'sprint' is not a valid IntensityZone" ∧
    (evaluate_session defaultConfig risk_threshold_green_max
      risk_threshold_yellow_max {}
      { sport_type := "run", planned_duration_minutes := 60,
        planned_intensity := some "tempo" }).isOk = true ∧
    (evaluate_session defaultConfig risk_threshold_green_max
      risk_threshold_yellow_max {}
      { sport_type := "bike", planned_duration_minutes := 45,
        planned_intensity := some "" }).isOk = true :=
  ⟨(c8_validation_fail_fast {}
      { sport_type := "soccer", planned_duration_minutes := 60 }).1
      (by decide),
   (c8_validation_fail_fast {}
      { sport_type := "run", planned_duration_minutes := 60,
        planned_intensity := some "sprint" }).2.1 "sprint"
      (by decide) rfl (by decide) (by decide),
   (c8_validation_fail_fast {}
      { sport_type := "run", planned_duration_minutes := 60,
        planned_intensity := some "tempo" }).2.2.2
      (by decide) (Or.inr (Or.inr ⟨.tempo, rfl⟩)) (Or.inl rfl),
   (c8_validation_fail_fast {}
      { sport_type := "bike", planned_duration_minutes := 45,
        planned_intensity := some "" }).2.2.2
      (by decide) (Or.inr (Or.inl rfl)) (Or.inl rfl)⟩

end InjuryRisk
